import Mathlib

set_option maxHeartbeats 1000000
set_option maxRecDepth 100000
set_option exponentiation.threshold 2000

/-!
Shallow embedding of the PipeWire SPA string utilities
(spa/include/spa/utils/string.h) together with models of the libc
primitives the header calls: strcmp, strncmp, strtol, strtoll, strtoull,
strtof, strtod and vsnprintf.  The libc models follow the C standard and
glibc on an LP64 platform (long and long long are both 64 bits wide).

A C string is modelled as the list of its bytes up to but excluding the
terminating nul, so the list never contains the nul character; a possibly
NULL pointer of type const char star is an Option over that list.  An
output parameter becomes explicit state passing: each parser receives the
prior contents of the output slot and returns the pair of its C return
value and the new slot contents.
-/

/-- Bytes of a nul-terminated C string, terminator excluded. -/
abbrev CStr := List Char

/-- Model of C isspace in the POSIX locale. -/
def cSpace (c : Char) : Bool :=
  c = ' ' || c = '\t' || c = '\n' || c = '\x0b' || c = '\x0c' || c = '\r'

/-- Numeric value of a character as a digit, as understood by the strtol
family: 0-9, then a-z and A-Z standing for 10 to 35. -/
def digitVal (c : Char) : Option Nat :=
  if '0' ≤ c && c ≤ '9' then some (c.toNat - '0'.toNat)
  else if 'a' ≤ c && c ≤ 'z' then some (c.toNat - 'a'.toNat + 10)
  else if 'A' ≤ c && c ≤ 'Z' then some (c.toNat - 'A'.toNat + 10)
  else none

/-- Whether a character is a digit valid in base b. -/
def isBaseDigit (b : Nat) (c : Char) : Bool :=
  match digitVal c with
  | some d => d < b
  | none => false

/-- Value of a digit string (most significant digit first) in base b. -/
def digitsVal (b : Nat) (ds : CStr) : Nat :=
  ds.foldl (fun a c => a * b + ((digitVal c).getD 0)) 0

/-- Split an optional leading sign character off a string.  Returns the
triple (minus sign seen, characters consumed, remainder). -/
def splitSign (s : CStr) : Bool × Nat × CStr :=
  match s with
  | c :: t =>
    if c = '-' then (true, 1, t)
    else if c = '+' then (false, 1, t)
    else (false, 0, c :: t)
  | [] => (false, 0, [])

/-- Whether the first character of a string is a hexadecimal digit. -/
def headIsHexDigit (s : CStr) : Bool :=
  match s with
  | c :: _ => isBaseDigit 16 c
  | [] => false

/-- Resolution of the 0x or 0X marker and of the effective base, per the C
rules for the strtol family: with base 16 the marker counts only when a hex
digit follows it; with base 0 such a marker selects base 16, otherwise a
bare leading 0 selects base 8 and anything else base 10.  Returns the
triple (effective base, characters consumed, remainder). -/
def resolveBase (base : Int) (s : CStr) : Nat × Nat × CStr :=
  if base = 16 then
    match s with
    | c0 :: x :: t =>
      if c0 = '0' && (x = 'x' || x = 'X') && headIsHexDigit t then (16, 2, t)
      else (16, 0, c0 :: x :: t)
    | _ => (16, 0, s)
  else if base = 0 then
    match s with
    | c0 :: x :: t =>
      if c0 = '0' && (x = 'x' || x = 'X') && headIsHexDigit t then (16, 2, t)
      else if c0 = '0' then (8, 0, c0 :: x :: t)
      else (10, 0, c0 :: x :: t)
    | [c0] => if c0 = '0' then (8, 0, [c0]) else (10, 0, [c0])
    | [] => (10, 0, [])
  else (base.toNat, 0, s)

/-- Outcome of the scanning phase shared by the strtol family: the sign,
the exact (unbounded) magnitude, the number of characters consumed (the
offset of endptr), and whether any digits were found.  When the subject
sequence is empty C leaves endptr equal to the input pointer, hence
consumed is 0 in that case. -/
structure RawParse where
  neg : Bool
  mag : Nat
  consumed : Nat
  hasDigits : Bool
deriving DecidableEq, Repr

/-- Scanning phase of the strtol family: skip leading whitespace, read an
optional sign, resolve the base marker, then take the longest run of
digits valid in the effective base. -/
def parseIntRaw (base : Int) (s : CStr) : RawParse :=
  let ws := s.takeWhile cSpace
  let s1 := s.dropWhile cSpace
  let (ng, sl, s2) := splitSign s1
  let (b, pl, s3) := resolveBase base s2
  let ds := s3.takeWhile (isBaseDigit b)
  if ds.isEmpty then ⟨false, 0, 0, false⟩
  else ⟨ng, digitsVal b ds, ws.length + sl + pl + ds.length, true⟩

/-- LP64 value of LONG_MAX (and LLONG_MAX). -/
def LONG_MAX : Int := 2 ^ 63 - 1

/-- LP64 value of LONG_MIN (and LLONG_MIN). -/
def LONG_MIN : Int := -(2 ^ 63)

/-- Value of ULLONG_MAX. -/
def ULLONG_MAX : Nat := 2 ^ 64 - 1

/-- Result of a signed strtol or strtoll call: the returned value, the
offset of endptr from the start of the string, and whether errno was set
(ERANGE on overflow, EINVAL on an unsupported base). -/
structure StrtolRes where
  value : Int
  consumed : Nat
  err : Bool
deriving DecidableEq, Repr

/-- Result of an unsigned strtoull call. -/
structure StrtoullRes where
  value : Nat
  consumed : Nat
  err : Bool
deriving DecidableEq, Repr

/-- Bases accepted by the strtol family. -/
def validBase (base : Int) : Bool := base = 0 || (2 ≤ base && base ≤ 36)

/-- Model of strtol on LP64 (64-bit long).  An unsupported base yields
errno EINVAL with endptr left at the start; overflow clamps the result to
LONG_MIN or LONG_MAX and sets errno ERANGE. -/
def strtol (s : CStr) (base : Int) : StrtolRes :=
  if ¬ validBase base then ⟨0, 0, true⟩
  else
    let r := parseIntRaw base s
    if ¬ r.hasDigits then ⟨0, 0, false⟩
    else
      let v : Int := if r.neg then -(r.mag : Int) else (r.mag : Int)
      if v < LONG_MIN then ⟨LONG_MIN, r.consumed, true⟩
      else if LONG_MAX < v then ⟨LONG_MAX, r.consumed, true⟩
      else ⟨v, r.consumed, false⟩

/-- Model of strtoll; on LP64 long long and long coincide. -/
def strtoll : CStr → Int → StrtolRes := strtol

/-- Model of strtoull.  A leading minus sign negates the converted
magnitude in the unsigned type, that is modulo 2 to the 64; a magnitude
beyond ULLONG_MAX clamps to ULLONG_MAX with errno ERANGE. -/
def strtoull (s : CStr) (base : Int) : StrtoullRes :=
  if ¬ validBase base then ⟨0, 0, true⟩
  else
    let r := parseIntRaw base s
    if ¬ r.hasDigits then ⟨0, 0, false⟩
    else if ULLONG_MAX < r.mag then ⟨ULLONG_MAX, r.consumed, true⟩
    else ⟨(if r.neg then (2 ^ 64 - r.mag) % 2 ^ 64 else r.mag), r.consumed, false⟩

/-- Model of strcmp: sign of the difference at the first differing byte,
the terminating nul comparing below every string byte. -/
def strcmp : CStr → CStr → Int
  | [], [] => 0
  | [], _ :: _ => -1
  | _ :: _, [] => 1
  | a :: as, b :: bs => if a = b then strcmp as bs else (a.toNat : Int) - (b.toNat : Int)

/-- Model of strncmp: as strcmp but comparing at most n bytes. -/
def strncmp : CStr → CStr → Nat → Int
  | _, _, 0 => 0
  | [], [], _ + 1 => 0
  | [], _ :: _, _ + 1 => -1
  | _ :: _, [], _ + 1 => 1
  | a :: as, b :: bs, n + 1 =>
    if a = b then strncmp as bs n else (a.toNat : Int) - (b.toNat : Int)

/-- Model of spa_streq.  When both pointers are non-NULL the C source
compares with strcmp; otherwise it compares the pointers themselves, which
is true exactly when both are NULL. -/
def spa_streq (s1 s2 : Option CStr) : Bool :=
  match s1, s2 with
  | some a, some b => strcmp a b == 0
  | none, none => true
  | _, _ => false

/-- Model of spa_strneq, the bounded variant of spa_streq. -/
def spa_strneq (s1 s2 : Option CStr) (len : Nat) : Bool :=
  match s1, s2 with
  | some a, some b => strncmp a b len == 0
  | none, none => true
  | _, _ => false

/-- Two's complement wrap of an integer to int32_t, as the C cast performs
on every mainstream implementation. -/
def toInt32 (v : Int) : Int := (v + 2 ^ 31) % 2 ^ 32 - 2 ^ 31

/-- Wrap of an unsigned value to uint32_t. -/
def toUInt32clip (v : Nat) : Nat := v % 2 ^ 32

/-- Model of spa_atoi32: fail on a NULL or empty string, convert with
strtol, fail when errno is set or the string was not fully consumed or the
value does not survive the cast to int32_t, else store the value. -/
def spa_atoi32 (str : Option CStr) (val : Int) (base : Int) : Bool × Int :=
  match str with
  | none => (false, val)
  | some s =>
    if s.isEmpty then (false, val)
    else
      let r := strtol s base
      if r.err || r.consumed != s.length then (false, val)
      else if r.value != toInt32 r.value then (false, val)
      else (true, r.value)

/-- Model of spa_atou32: as spa_atoi32 but converting with strtoull and
narrowing to uint32_t. -/
def spa_atou32 (str : Option CStr) (val : Nat) (base : Int) : Bool × Nat :=
  match str with
  | none => (false, val)
  | some s =>
    if s.isEmpty then (false, val)
    else
      let r := strtoull s base
      if r.err || r.consumed != s.length then (false, val)
      else if r.value != toUInt32clip r.value then (false, val)
      else (true, r.value)

/-- Model of spa_atoi64: converts with strtoll; no narrowing check. -/
def spa_atoi64 (str : Option CStr) (val : Int) (base : Int) : Bool × Int :=
  match str with
  | none => (false, val)
  | some s =>
    if s.isEmpty then (false, val)
    else
      let r := strtoll s base
      if r.err || r.consumed != s.length then (false, val)
      else (true, r.value)

/-- Model of spa_atou64: converts with strtoull; no narrowing check. -/
def spa_atou64 (str : Option CStr) (val : Nat) (base : Int) : Bool × Nat :=
  match str with
  | none => (false, val)
  | some s =>
    if s.isEmpty then (false, val)
    else
      let r := strtoull s base
      if r.err || r.consumed != s.length then (false, val)
      else (true, r.value)

/-- Model of spa_atob: true exactly on the literal strings true and 1,
through spa_streq (hence false on NULL). -/
def spa_atob (str : Option CStr) : Bool :=
  spa_streq str (some "true".toList) || spa_streq str (some "1".toList)

/-- A C floating value as parsed: none models a non-finite result
(infinity or NaN), some q models the exact rational value the text
denotes.  The IEEE rounding of an in-range finite value is not modelled;
no claim inspects the stored finite value. -/
abbrev FVal := Option Rat

/-- Mantissa of a C floating literal in base b (10 for decimal text, 16
after a 0x marker): a digit run, optionally containing one period, with at
least one digit overall.  Returns none when no digit is found, otherwise
the mantissa as the exact fraction numerator over b to the count of
fraction digits, the characters consumed and the remainder. -/
def parseMantissa (b : Nat) (s : CStr) : Option (Nat × Nat × Nat × CStr) :=
  let ip := s.takeWhile (isBaseDigit b)
  let r1 := s.dropWhile (isBaseDigit b)
  match r1 with
  | '.' :: t =>
    let fp := t.takeWhile (isBaseDigit b)
    if ip.isEmpty && fp.isEmpty then none
    else some (digitsVal b ip * b ^ fp.length + digitsVal b fp, fp.length,
               ip.length + 1 + fp.length, t.dropWhile (isBaseDigit b))
  | _ =>
    if ip.isEmpty then none
    else some (digitsVal b ip, 0, ip.length, r1)

/-- Exponent part of a C floating literal: one of the marker characters,
an optional sign and a nonempty decimal digit run; when the digit run is
missing nothing is consumed.  Returns the exponent value, the characters
consumed and the remainder. -/
def parseExp (marks : List Char) (s : CStr) : Int × Nat × CStr :=
  match s with
  | e :: t =>
    if marks.contains e then
      let (ng, sl, t1) := splitSign t
      let ds := t1.takeWhile (isBaseDigit 10)
      if ds.isEmpty then (0, 0, e :: t)
      else ((if ng then -(digitsVal 10 ds : Int) else (digitsVal 10 ds : Int)),
            1 + sl + ds.length, t1.dropWhile (isBaseDigit 10))
    else (0, 0, e :: t)
  | [] => (0, 0, [])

/-- Lower-casing of an ASCII letter. -/
def toLowerCh (c : Char) : Char :=
  if 'A' ≤ c && c ≤ 'Z' then Char.ofNat (c.toNat + 32) else c

/-- Case-insensitive match of a (lower-case) literal at the head of a
string. -/
def matchesCI (pat : List Char) (s : CStr) : Bool :=
  (s.take pat.length).map toLowerCh == pat

/-- Characters allowed inside the parenthesised NaN payload. -/
def isNanChar (c : Char) : Bool :=
  isBaseDigit 36 c || c = '_'

/-- Combination of an exact mantissa fraction (mantissa numerator over
fbase to the fraction digit count) with an exponent that scales by ebase
to the exponent, as an exact unreduced fraction numerator and (positive)
denominator. -/
def scaleByExp (fbase ebase mnum k : Nat) (e : Int) : Nat × Nat :=
  if 0 ≤ e then (mnum * ebase ^ e.toNat, fbase ^ k)
  else (mnum, fbase ^ k * ebase ^ (-e).toNat)

/-- Unsigned numeric part of a C floating literal after sign removal:
either a 0x or 0X marker followed by a hexadecimal mantissa and an
optional p exponent (power of two), or a decimal mantissa with an optional
e exponent (power of ten).  A 0x marker not followed by a valid
hexadecimal mantissa falls back to the decimal reading of the leading 0.
Returns the exact value as an unreduced fraction together with the
characters consumed, none when no conversion is possible. -/
def parseFloatNum (s : CStr) : Option (Nat × Nat × Nat) :=
  let dec : Option (Nat × Nat × Nat) :=
    match parseMantissa 10 s with
    | some (mnum, k, mc, r2) =>
      let (e, ec, _) := parseExp ['e', 'E'] r2
      let (num, den) := scaleByExp 10 10 mnum k e
      some (num, den, mc + ec)
    | none => none
  match s with
  | '0' :: x :: t =>
    if x = 'x' || x = 'X' then
      match parseMantissa 16 t with
      | some (mnum, k, mc, r2) =>
        let (e, ec, _) := parseExp ['p', 'P'] r2
        let (num, den) := scaleByExp 16 2 mnum k e
        some (num, den, 2 + mc + ec)
      | none => dec
    else dec
  | _ => dec

/-- Scanning phase of strtof and strtod: optional whitespace and sign,
then infinity, nan (with an optional parenthesised payload) or a numeric
literal.  Returns the value and the characters consumed; consumed 0 means
no conversion (C then returns zero with endptr at the start). -/
def parseFloatRaw (s : CStr) : Option (Int × Nat) × Nat :=
  let ws := s.takeWhile cSpace
  let s1 := s.dropWhile cSpace
  let (ng, sl, s2) := splitSign s1
  let pre := ws.length + sl
  if matchesCI ['i', 'n', 'f', 'i', 'n', 'i', 't', 'y'] s2 then (none, pre + 8)
  else if matchesCI ['i', 'n', 'f'] s2 then (none, pre + 3)
  else if matchesCI ['n', 'a', 'n'] s2 then
    match s2.drop 3 with
    | '(' :: u =>
      (match u.dropWhile isNanChar with
       | ')' :: _ => (none, pre + 3 + 1 + (u.takeWhile isNanChar).length + 1)
       | _ => (none, pre + 3))
    | _ => (none, pre + 3)
  else
    match parseFloatNum s2 with
    | some (num, den, mc) =>
      (some ((if ng then -(num : Int) else (num : Int)), den), pre + mc)
    | none => (some (0, 1), 0)

/-- Largest finite float value: an exact integer, (2 - 2 ^ (-23)) times
2 ^ 127. -/
def FLT_MAX_NUM : Nat := (2 ^ 24 - 1) * 2 ^ 104

/-- Largest finite double value: an exact integer, (2 - 2 ^ (-52)) times
2 ^ 1023. -/
def DBL_MAX_NUM : Nat := (2 ^ 53 - 1) * 2 ^ 971

/-- Result of a strtof or strtod call. -/
structure StrtofRes where
  value : FVal
  consumed : Nat
  err : Bool
deriving DecidableEq, Repr

/-- Model of strtof.  Overflow beyond the largest finite float returns an
infinity with errno ERANGE; the magnitude comparison is done on the exact
unreduced fraction.  The glibc ERANGE on underflow to a subnormal and the
rounding of in-range values are not modelled; no claim depends on them. -/
def strtof (s : CStr) : StrtofRes :=
  match parseFloatRaw s with
  | (_, 0) => ⟨some 0, 0, false⟩
  | (none, n) => ⟨none, n, false⟩
  | (some (num, den), n) =>
    if FLT_MAX_NUM * den < num.natAbs then ⟨none, n, true⟩
    else ⟨some (mkRat num den), n, false⟩

/-- Model of strtod, as strtof at double range. -/
def strtod (s : CStr) : StrtofRes :=
  match parseFloatRaw s with
  | (_, 0) => ⟨some 0, 0, false⟩
  | (none, n) => ⟨none, n, false⟩
  | (some (num, den), n) =>
    if DBL_MAX_NUM * den < num.natAbs then ⟨none, n, true⟩
    else ⟨some (mkRat num den), n, false⟩

/-- Model of spa_atof: fail on a NULL or empty string, convert with
strtof, fail when errno is set or the string was not fully consumed, else
store the value. -/
def spa_atof (str : Option CStr) (val : FVal) : Bool × FVal :=
  match str with
  | none => (false, val)
  | some s =>
    if s.isEmpty then (false, val)
    else
      let r := strtof s
      if r.err || r.consumed != s.length then (false, val)
      else (true, r.value)

/-- Model of spa_atod, as spa_atof over strtod. -/
def spa_atod (str : Option CStr) (val : FVal) : Bool × FVal :=
  match str with
  | none => (false, val)
  | some s =>
    if s.isEmpty then (false, val)
    else
      let r := strtod s
      if r.err || r.consumed != s.length then (false, val)
      else (true, r.value)

/-- The nul character. -/
def NUL : Char := Char.ofNat 0

/-- Reinterpretation of a 64-bit size_t value as ssize_t. -/
def toSsize (n : Nat) : Int := if n < 2 ^ 63 then (n : Int) else (n : Int) - 2 ^ 64

/-- Model of C vsnprintf at the level of the text it would produce: out is
the full formatted output of the format string and arguments, formatting
assumed successful (so the return value, the required length, is never
negative here).  Returns that length and the bytes written into the
buffer: at most size bytes, nul-terminated whenever size is positive. -/
def vsnprintf (size : Nat) (out : List Char) : Int × List Char :=
  ((out.length : Int), if size = 0 then [] else out.take (size - 1) ++ [NUL])

/-- Modelled from the spec: spa_assert comes from spa/utils/defs.h, which
is not among the sources here; per the spec and the documentation comment
in string.h it is a fatal, unrecoverable abort of the process when its
condition is false.  An aborted computation is modelled as none. -/
def spa_assert (cond : Bool) : Option Unit :=
  if cond then some () else none

/-- Model of spa_vscnprintf: assert that size is positive as ssize_t,
delegate to vsnprintf, force the first byte to nul when vsnprintf reports
an error, and clip the returned count to size - 1.  The buffer is modelled
by the bytes written into it; an abort of the whole call is none. -/
def spa_vscnprintf (size : Nat) (out : List Char) : Option (Int × List Char) :=
  match spa_assert (0 < toSsize size) with
  | none => none
  | some _ =>
    let (r, buf) := vsnprintf size out
    let buf1 := if r < 0 then NUL :: buf.drop 1 else buf
    if r < toSsize size then some (r, buf1)
    else some ((size : Int) - 1, buf1)

/-- Model of spa_scnprintf: collects its variadic arguments and delegates
to spa_vscnprintf, equivalent in every respect. -/
def spa_scnprintf : Nat → List Char → Option (Int × List Char) := spa_vscnprintf

/-- Character for the digit d: 0-9, then lower case letters from 10, as a
standard base renderer emits. -/
def natDigitChar (d : Nat) : Char :=
  if d < 10 then Char.ofNat ('0'.toNat + d) else Char.ofNat ('a'.toNat + (d - 10))

/-- Little-endian digits of n in base b, fuel-based so that it evaluates
by kernel reduction (Nat.digits in Mathlib is defined by well-founded
recursion, which does not). -/
def natDigitsRevAux (b : Nat) : Nat → Nat → List Nat
  | 0, _ => []
  | _ + 1, 0 => []
  | fuel + 1, n + 1 => (n + 1) % b :: natDigitsRevAux b fuel ((n + 1) / b)

/-- Little-endian digits of n in base b. -/
def natDigitsRev (b n : Nat) : List Nat := natDigitsRevAux b n n

/-- Standard base-b rendering of a natural number: 0 is rendered as the
single digit 0, anything else without leading zeros, most significant
digit first. -/
def renderNat (b n : Nat) : CStr :=
  if n = 0 then ['0'] else (natDigitsRev b n).reverse.map natDigitChar

/-- Rendering of an integer in base b, with a leading minus sign for
negative values. -/
def renderInt (b : Nat) (v : Int) : CStr :=
  if v < 0 then '-' :: renderNat b v.natAbs else renderNat b v.natAbs

/-- Hexadecimal rendering with a 0x marker (after the sign), the form the
base-0 auto-detection of the strtol family recognises as hexadecimal. -/
def renderHex0x (v : Int) : CStr :=
  if v < 0 then '-' :: '0' :: 'x' :: renderNat 16 v.natAbs
  else '0' :: 'x' :: renderNat 16 v.natAbs

example : spa_vscnprintf 4 "hello".toList = some (3, "hel".toList ++ [NUL]) := by decide
example : spa_vscnprintf 10 "hi".toList = some (2, "hi".toList ++ [NUL]) := by decide
example : spa_vscnprintf 0 "hi".toList = none := by decide
example : spa_atof (some "3.14 ".toList) (some 0) = (false, some 0) := by decide
example : spa_atof (some "3.14".toList) (some 0) = (true, some (mkRat 157 50)) := by decide
example : spa_atod (some "1e3".toList) none = (true, some (mkRat 1000 1)) := by decide
example : spa_atof (some "inf".toList) (some 0) = (true, none) := by decide
example : spa_atof (some "0x10p1".toList) (some 0) = (true, some (mkRat 32 1)) := by decide
example : spa_atof (some "1e50".toList) (some 0) = (false, some 0) := by decide
example : spa_atod (some "1e50".toList) (some 0) = (true, some (mkRat (10 ^ 50) 1)) := by decide
example : spa_atof (some "nan".toList) (some 0) = (true, none) := by decide
example : spa_atod (some "0x".toList) (some 0) = (false, some 0) := by decide
example : spa_atod (some ".5e-1".toList) (some 0) = (true, some (mkRat 5 100)) := by decide

example : spa_atoi32 (some "42".toList) 7 10 = (true, 42) := by decide
example : spa_atoi32 (some "42xyz".toList) 7 10 = (false, 7) := by decide
example : spa_atou32 (some "4294967296".toList) 7 10 = (false, 7) := by decide
example : spa_atou32 (some "4294967295".toList) 7 10 = (true, 4294967295) := by decide
example : spa_atou32 (some "-1".toList) 7 10 = (false, 7) := by decide
example : spa_atoi32 (some "-1".toList) 7 10 = (true, -1) := by decide
example : spa_atou64 (some "-1".toList) 7 10 = (true, 2 ^ 64 - 1) := by decide
example : spa_atoi32 (some "0x10".toList) 7 16 = (true, 16) := by decide
example : spa_atoi32 (some "0x10".toList) 7 0 = (true, 16) := by decide
example : spa_atoi32 (some "010".toList) 7 0 = (true, 8) := by decide
example : spa_atoi32 (some "0x".toList) 7 16 = (false, 7) := by decide
example : spa_atob (some "true".toList) = true := by decide
example : spa_atob (some "TRUE".toList) = false := by decide
example : spa_atob none = false := by decide

lemma spa_atoi32_cases (str : Option CStr) (v b : Int) :
    spa_atoi32 str v b = (false, v) ∨ (spa_atoi32 str v b).1 = true := by
  cases str with
  | none => exact Or.inl rfl
  | some s =>
    simp only [spa_atoi32]
    split_ifs <;> simp

lemma spa_atou32_cases (str : Option CStr) (v : Nat) (b : Int) :
    spa_atou32 str v b = (false, v) ∨ (spa_atou32 str v b).1 = true := by
  cases str with
  | none => exact Or.inl rfl
  | some s =>
    simp only [spa_atou32]
    split_ifs <;> simp

lemma spa_atoi64_cases (str : Option CStr) (v b : Int) :
    spa_atoi64 str v b = (false, v) ∨ (spa_atoi64 str v b).1 = true := by
  cases str with
  | none => exact Or.inl rfl
  | some s =>
    simp only [spa_atoi64]
    split_ifs <;> simp

lemma spa_atou64_cases (str : Option CStr) (v : Nat) (b : Int) :
    spa_atou64 str v b = (false, v) ∨ (spa_atou64 str v b).1 = true := by
  cases str with
  | none => exact Or.inl rfl
  | some s =>
    simp only [spa_atou64]
    split_ifs <;> simp

lemma spa_atof_cases (str : Option CStr) (v : FVal) :
    spa_atof str v = (false, v) ∨ (spa_atof str v).1 = true := by
  cases str with
  | none => exact Or.inl rfl
  | some s =>
    simp only [spa_atof]
    split_ifs <;> simp

lemma spa_atod_cases (str : Option CStr) (v : FVal) :
    spa_atod str v = (false, v) ∨ (spa_atod str v).1 = true := by
  cases str with
  | none => exact Or.inl rfl
  | some s =>
    simp only [spa_atod]
    split_ifs <;> simp

lemma Char_toNat_inj {a b : Char} (h : a.toNat = b.toNat) : a = b :=
  Char.ext (UInt32.toNat.inj h)

lemma strcmp_eq_zero_iff : ∀ a b : CStr, strcmp a b = 0 ↔ a = b := by
  intro a
  induction a with
  | nil =>
    intro b
    cases b with
    | nil => simp [strcmp]
    | cons c cs => simp [strcmp]
  | cons c cs ih =>
    intro b
    cases b with
    | nil => simp [strcmp]
    | cons d ds =>
      by_cases hcd : c = d
      · subst hcd
        simp [strcmp, ih]
      · have hne : (c.toNat : Int) - (d.toNat : Int) ≠ 0 := by
          intro h0
          exact hcd (Char_toNat_inj (by omega))
        simp [strcmp, hcd, hne]

lemma strncmp_eq_zero_iff : ∀ (n : Nat) (a b : CStr),
    strncmp a b n = 0 ↔ a.take n = b.take n := by
  intro n
  induction n with
  | zero => intro a b; simp [strncmp]
  | succ n ih =>
    intro a b
    cases a with
    | nil =>
      cases b with
      | nil => simp [strncmp]
      | cons d ds => simp [strncmp]
    | cons c cs =>
      cases b with
      | nil => simp [strncmp]
      | cons d ds =>
        by_cases hcd : c = d
        · subst hcd
          simp [strncmp, ih]
        · have hne : (c.toNat : Int) - (d.toNat : Int) ≠ 0 := by
            intro h0
            exact hcd (Char_toNat_inj (by omega))
          simp [strncmp, hcd, hne]

/-- C7: spa_atob is a total function that never fails: it returns true if
and only if the input is a present string byte-equal to the literal true
or to the literal 1; every other input, including an absent string, the
empty string, TRUE, yes and 0, returns false. -/
theorem C7_atob_literal_vocabulary :
    (∀ s : CStr, spa_atob (some s) = true ↔ (s = "true".toList ∨ s = "1".toList)) ∧
    spa_atob none = false ∧
    spa_atob (some "".toList) = false ∧
    spa_atob (some "TRUE".toList) = false ∧
    spa_atob (some "yes".toList) = false ∧
    spa_atob (some "0".toList) = false := by
  refine ⟨?_, by decide, by decide, by decide, by decide, by decide⟩
  intro s
  simp only [spa_atob, spa_streq, Bool.or_eq_true, beq_iff_eq]
  rw [strcmp_eq_zero_iff, strcmp_eq_zero_iff]

/-- C8: spa_streq returns true when both strings are absent, false when
exactly one is absent (in particular a present empty string is not equal
to an absent one), and for two present strings returns true exactly when
they are byte-identical over their full lengths. -/
theorem C8_streq_absent_safe_equality :
    spa_streq none none = true ∧
    (∀ a : CStr, spa_streq (some a) none = false ∧ spa_streq none (some a) = false) ∧
    spa_streq (some []) none = false ∧
    (∀ a b : CStr, spa_streq (some a) (some b) = true ↔ a = b) := by
  refine ⟨rfl, fun a => ⟨rfl, rfl⟩, rfl, fun a b => ?_⟩
  simp only [spa_streq, beq_iff_eq]
  exact strcmp_eq_zero_iff a b

/-- C9: spa_strneq compares only the first n bytes of two present strings
without requiring either to be n bytes long: it returns true exactly when
the length-n truncations agree, so a string that is a proper leading part
of a longer one is reported equal whenever n does not exceed its length;
absent handling is as in spa_streq. -/
theorem C9_strneq_bounded_equality :
    (∀ (a b : CStr) (n : Nat),
        spa_strneq (some a) (some b) n = true ↔ a.take n = b.take n) ∧
    (∀ (a rest : CStr) (n : Nat), n ≤ a.length →
        spa_strneq (some a) (some (a ++ rest)) n = true) ∧
    (∀ n : Nat, spa_strneq none none n = true) ∧
    (∀ (a : CStr) (n : Nat),
        spa_strneq (some a) none n = false ∧ spa_strneq none (some a) n = false) := by
  have hiff : ∀ (a b : CStr) (n : Nat),
      spa_strneq (some a) (some b) n = true ↔ a.take n = b.take n := by
    intro a b n
    simp only [spa_strneq, beq_iff_eq]
    exact strncmp_eq_zero_iff n a b
  refine ⟨hiff, ?_, fun n => rfl, fun a n => ⟨rfl, rfl⟩⟩
  intro a rest n hn
  rw [hiff]
  rw [List.take_append_of_le_length hn]

/-- C9 witness: a 3-byte bounded compare reports the prefix string abc
equal to the longer string abcdef. -/
theorem C9_strneq_bounded_equality_witness :
    3 ≤ ("abc".toList : CStr).length ∧
    spa_strneq (some "abc".toList) (some ("abc".toList ++ "def".toList)) 3 = true :=
  ⟨by decide, C9_strneq_bounded_equality.2.1 "abc".toList "def".toList 3 (by decide)⟩

lemma toSsize_pos_iff (size : Nat) (h64 : size < 2 ^ 64) :
    (0 < toSsize size) ↔ (0 < size ∧ size < 2 ^ 63) := by
  unfold toSsize
  split_ifs with h <;> omega

lemma spa_vscnprintf_pos_eq (size : Nat) (out : List Char)
    (hpos : 0 < size) (hrange : size < 2 ^ 63) :
    spa_vscnprintf size out =
      if out.length < size then some ((out.length : Int), out ++ [NUL])
      else some ((size : Int) - 1, out.take (size - 1) ++ [NUL]) := by
  have hts : toSsize size = (size : Int) := by
    unfold toSsize
    rw [if_pos hrange]
  unfold spa_vscnprintf spa_assert vsnprintf
  rw [if_pos (by
    rw [decide_eq_true_eq, toSsize_pos_iff size (by omega)]
    exact ⟨hpos, hrange⟩)]
  simp only [hts]
  rw [if_neg (show ¬ size = 0 by omega)]
  rw [if_neg (show ¬ ((out.length : Int) < 0) by omega)]
  by_cases hfit : out.length < size
  · rw [if_pos (by exact_mod_cast hfit), if_pos hfit,
      List.take_of_length_le (by omega)]
  · rw [if_neg (by exact_mod_cast hfit), if_neg hfit]

/-- C6: calling the bounded formatters with a capacity of zero, or with
any size whose reinterpretation as ssize_t is not positive, is a fatal
abort rather than a return; execution continues past the capacity check
exactly when the capacity is positive as ssize_t, so the continuing branch
is unreachable for such capacities. -/
theorem C6_formatter_aborts_on_nonpositive_capacity :
    ∀ (size : Nat) (out : List Char), size < 2 ^ 64 →
      (spa_vscnprintf size out = none ↔ (size = 0 ∨ 2 ^ 63 ≤ size)) ∧
      (spa_scnprintf size out = none ↔ (size = 0 ∨ 2 ^ 63 ≤ size)) := by
  intro size out h64
  have habort : spa_vscnprintf size out = none ↔ (size = 0 ∨ 2 ^ 63 ≤ size) := by
    by_cases h : 0 < size ∧ size < 2 ^ 63
    · rw [spa_vscnprintf_pos_eq size out h.1 h.2]
      split_ifs <;> simp <;> omega
    · unfold spa_vscnprintf spa_assert
      rw [if_neg (by rw [decide_eq_true_eq, toSsize_pos_iff size h64]; exact h)]
      simp only [true_iff]
      omega
  exact ⟨habort, habort⟩

/-- C6 witness: a zero capacity makes both formatters abort. -/
theorem C6_formatter_aborts_on_nonpositive_capacity_witness :
    (0 : Nat) < 2 ^ 64 ∧ spa_vscnprintf 0 "hi".toList = none ∧
      spa_scnprintf 0 "hi".toList = none := by
  have h := C6_formatter_aborts_on_nonpositive_capacity 0 "hi".toList (by norm_num)
  exact ⟨by norm_num, h.1.mpr (Or.inl rfl), h.2.mpr (Or.inl rfl)⟩

/-- C5: for a positive capacity (in ssize_t range) and a successful
underlying format, the bounded formatters return the full required length
with the whole output nul-terminated in the buffer when that length is
strictly below the capacity, and otherwise truncate the output to
capacity minus one bytes plus a nul terminator and return capacity minus
one. -/
theorem C5_formatter_clamped_output :
    ∀ (size : Nat) (out : List Char), 0 < size → size < 2 ^ 63 →
      ((out.length < size →
          spa_vscnprintf size out = some ((out.length : Int), out ++ [NUL]) ∧
          spa_scnprintf size out = some ((out.length : Int), out ++ [NUL])) ∧
       (size ≤ out.length →
          spa_vscnprintf size out = some ((size : Int) - 1, out.take (size - 1) ++ [NUL]) ∧
          spa_scnprintf size out = some ((size : Int) - 1, out.take (size - 1) ++ [NUL]))) := by
  intro size out hpos hrange
  constructor
  · intro hfit
    have hv : spa_vscnprintf size out = some ((out.length : Int), out ++ [NUL]) := by
      rw [spa_vscnprintf_pos_eq size out hpos hrange, if_pos hfit]
    exact ⟨hv, hv⟩
  · intro hbig
    have hv : spa_vscnprintf size out =
        some ((size : Int) - 1, out.take (size - 1) ++ [NUL]) := by
      rw [spa_vscnprintf_pos_eq size out hpos hrange, if_neg (by omega)]
    exact ⟨hv, hv⟩

/-- C5 witness: formatting hello into a 4-byte buffer writes hel plus nul
and returns 3; formatting hi into a 10-byte buffer writes hi plus nul and
returns 2. -/
theorem C5_formatter_clamped_output_witness :
    (0 < 4 ∧ 4 < 2 ^ 63 ∧ 4 ≤ ("hello".toList : List Char).length ∧
      spa_scnprintf 4 "hello".toList = some (3, "hel".toList ++ [NUL])) ∧
    (0 < 10 ∧ 10 < 2 ^ 63 ∧ ("hi".toList : List Char).length < 10 ∧
      spa_scnprintf 10 "hi".toList = some (2, "hi".toList ++ [NUL])) := by
  constructor
  · refine ⟨by decide, by norm_num, by decide, ?_⟩
    have h := ((C5_formatter_clamped_output 4 "hello".toList (by decide)
      (by norm_num)).2 (by decide)).2
    have h2 : (((4 : Nat) : Int) - 1, "hello".toList.take (4 - 1) ++ [NUL])
        = ((3 : Int), "hel".toList ++ [NUL]) := by decide
    rw [h2] at h
    exact h
  · refine ⟨by decide, by norm_num, by decide, ?_⟩
    have h := ((C5_formatter_clamped_output 10 "hi".toList (by decide)
      (by norm_num)).1 (by decide)).2
    have h2 : ((("hi".toList : List Char).length : Int), "hi".toList ++ [NUL])
        = ((2 : Int), "hi".toList ++ [NUL]) := by decide
    rw [h2] at h
    exact h

lemma spa_atoi32_frame (str : Option CStr) (v b : Int)
    (h : (spa_atoi32 str v b).1 = false) : spa_atoi32 str v b = (false, v) := by
  rcases spa_atoi32_cases str v b with hc | hc
  · exact hc
  · rw [h] at hc; cases hc

lemma spa_atou32_frame (str : Option CStr) (v : Nat) (b : Int)
    (h : (spa_atou32 str v b).1 = false) : spa_atou32 str v b = (false, v) := by
  rcases spa_atou32_cases str v b with hc | hc
  · exact hc
  · rw [h] at hc; cases hc

lemma spa_atoi64_frame (str : Option CStr) (v b : Int)
    (h : (spa_atoi64 str v b).1 = false) : spa_atoi64 str v b = (false, v) := by
  rcases spa_atoi64_cases str v b with hc | hc
  · exact hc
  · rw [h] at hc; cases hc

lemma spa_atou64_frame (str : Option CStr) (v : Nat) (b : Int)
    (h : (spa_atou64 str v b).1 = false) : spa_atou64 str v b = (false, v) := by
  rcases spa_atou64_cases str v b with hc | hc
  · exact hc
  · rw [h] at hc; cases hc

lemma spa_atof_frame (str : Option CStr) (v : FVal)
    (h : (spa_atof str v).1 = false) : spa_atof str v = (false, v) := by
  rcases spa_atof_cases str v with hc | hc
  · exact hc
  · rw [h] at hc; cases hc

lemma spa_atod_frame (str : Option CStr) (v : FVal)
    (h : (spa_atod str v).1 = false) : spa_atod str v = (false, v) := by
  rcases spa_atod_cases str v with hc | hc
  · exact hc
  · rw [h] at hc; cases hc

/-- C2: whenever a numeric parser returns false, for any input (also an
absent or empty one) and any base, the output slot holds exactly the value
it held before the call. -/
theorem C2_failure_leaves_slot_unmodified :
    ∀ (str : Option CStr) (base : Int) (vi32 : Int) (vu32 : Nat)
      (vi64 : Int) (vu64 : Nat) (vf vd : FVal),
      ((spa_atoi32 str vi32 base).1 = false → (spa_atoi32 str vi32 base).2 = vi32) ∧
      ((spa_atou32 str vu32 base).1 = false → (spa_atou32 str vu32 base).2 = vu32) ∧
      ((spa_atoi64 str vi64 base).1 = false → (spa_atoi64 str vi64 base).2 = vi64) ∧
      ((spa_atou64 str vu64 base).1 = false → (spa_atou64 str vu64 base).2 = vu64) ∧
      ((spa_atof str vf).1 = false → (spa_atof str vf).2 = vf) ∧
      ((spa_atod str vd).1 = false → (spa_atod str vd).2 = vd) := by
  intro str base vi32 vu32 vi64 vu64 vf vd
  exact ⟨fun h => by rw [spa_atoi32_frame str vi32 base h],
         fun h => by rw [spa_atou32_frame str vu32 base h],
         fun h => by rw [spa_atoi64_frame str vi64 base h],
         fun h => by rw [spa_atou64_frame str vu64 base h],
         fun h => by rw [spa_atof_frame str vf h],
         fun h => by rw [spa_atod_frame str vd h]⟩

/-- C2 witness: a failing parse of the string 9z leaves a slot primed
with 7 at 7, and similarly for the other parsers. -/
theorem C2_failure_leaves_slot_unmodified_witness :
    (spa_atoi32 (some "9z".toList) 7 10).1 = false ∧
    (spa_atoi32 (some "9z".toList) 7 10).2 = 7 ∧
    (spa_atou32 (some "9z".toList) 8 10).2 = 8 ∧
    (spa_atoi64 (some "9z".toList) 9 10).2 = 9 ∧
    (spa_atou64 (some "9z".toList) 10 10).2 = 10 ∧
    (spa_atof (some "9z".toList) (some 11)).2 = some 11 ∧
    (spa_atod (some "9z".toList) (some 12)).2 = some 12 := by
  have h := C2_failure_leaves_slot_unmodified (some "9z".toList) 10 7 8 9 10
    (some 11) (some 12)
  exact ⟨by decide, h.1 (by decide), h.2.1 (by decide), h.2.2.1 (by decide),
         h.2.2.2.1 (by decide), h.2.2.2.2.1 (by decide), h.2.2.2.2.2 (by decide)⟩

lemma spa_atoi32_fail (s : CStr) (v b : Int)
    (h : (strtol s b).consumed ≠ s.length) :
    spa_atoi32 (some s) v b = (false, v) := by
  by_cases hs : s.isEmpty
  · simp [spa_atoi32, hs]
  · simp [spa_atoi32, hs, h]

lemma spa_atou32_fail (s : CStr) (v : Nat) (b : Int)
    (h : (strtoull s b).consumed ≠ s.length) :
    spa_atou32 (some s) v b = (false, v) := by
  by_cases hs : s.isEmpty
  · simp [spa_atou32, hs]
  · simp [spa_atou32, hs, h]

lemma spa_atoi64_fail (s : CStr) (v b : Int)
    (h : (strtoll s b).consumed ≠ s.length) :
    spa_atoi64 (some s) v b = (false, v) := by
  by_cases hs : s.isEmpty
  · simp [spa_atoi64, hs]
  · simp [spa_atoi64, hs, h]

lemma spa_atou64_fail (s : CStr) (v : Nat) (b : Int)
    (h : (strtoull s b).consumed ≠ s.length) :
    spa_atou64 (some s) v b = (false, v) := by
  by_cases hs : s.isEmpty
  · simp [spa_atou64, hs]
  · simp [spa_atou64, hs, h]

lemma spa_atof_fail (s : CStr) (v : FVal)
    (h : (strtof s).consumed ≠ s.length) :
    spa_atof (some s) v = (false, v) := by
  by_cases hs : s.isEmpty
  · simp [spa_atof, hs]
  · simp [spa_atof, hs, h]

lemma spa_atod_fail (s : CStr) (v : FVal)
    (h : (strtod s).consumed ≠ s.length) :
    spa_atod (some s) v = (false, v) := by
  by_cases hs : s.isEmpty
  · simp [spa_atod, hs]
  · simp [spa_atod, hs, h]

/-- C1: whenever the underlying conversion does not consume the whole
string (in particular on an otherwise valid numeric token followed by a
trailing non-numeric character), every numeric parser returns false and
leaves the output slot unmodified. -/
theorem C1_trailing_characters_rejected :
    ∀ (s : CStr) (base : Int) (vi32 : Int) (vu32 : Nat)
      (vi64 : Int) (vu64 : Nat) (vf vd : FVal),
      ((strtol s base).consumed ≠ s.length →
        spa_atoi32 (some s) vi32 base = (false, vi32)) ∧
      ((strtoull s base).consumed ≠ s.length →
        spa_atou32 (some s) vu32 base = (false, vu32)) ∧
      ((strtoll s base).consumed ≠ s.length →
        spa_atoi64 (some s) vi64 base = (false, vi64)) ∧
      ((strtoull s base).consumed ≠ s.length →
        spa_atou64 (some s) vu64 base = (false, vu64)) ∧
      ((strtof s).consumed ≠ s.length →
        spa_atof (some s) vf = (false, vf)) ∧
      ((strtod s).consumed ≠ s.length →
        spa_atod (some s) vd = (false, vd)) := by
  intro s base vi32 vu32 vi64 vu64 vf vd
  exact ⟨spa_atoi32_fail s vi32 base, spa_atou32_fail s vu32 base,
         spa_atoi64_fail s vi64 base, spa_atou64_fail s vu64 base,
         spa_atof_fail s vf, spa_atod_fail s vd⟩

/-- C1 witness: the integer parsers reject 42xyz at base 10 and the float
parsers reject 3.14 followed by a space, all leaving the slot intact. -/
theorem C1_trailing_characters_rejected_witness :
    ((strtol "42xyz".toList 10).consumed ≠ ("42xyz".toList).length ∧
      spa_atoi32 (some "42xyz".toList) 7 10 = (false, 7)) ∧
    ((strtoull "42xyz".toList 10).consumed ≠ ("42xyz".toList).length ∧
      spa_atou32 (some "42xyz".toList) 8 10 = (false, 8)) ∧
    ((strtoll "42xyz".toList 10).consumed ≠ ("42xyz".toList).length ∧
      spa_atoi64 (some "42xyz".toList) 9 10 = (false, 9)) ∧
    ((strtoull "42xyz".toList 10).consumed ≠ ("42xyz".toList).length ∧
      spa_atou64 (some "42xyz".toList) 10 10 = (false, 10)) ∧
    ((strtof "3.14 ".toList).consumed ≠ ("3.14 ".toList).length ∧
      spa_atof (some "3.14 ".toList) (some 11) = (false, some 11)) ∧
    ((strtod "3.14 ".toList).consumed ≠ ("3.14 ".toList).length ∧
      spa_atod (some "3.14 ".toList) (some 12) = (false, some 12)) := by
  have ha := C1_trailing_characters_rejected "42xyz".toList 10 7 8 9 10
    (some 11) (some 12)
  have hb := C1_trailing_characters_rejected "3.14 ".toList 10 7 8 9 10
    (some 11) (some 12)
  exact ⟨⟨by decide, ha.1 (by decide)⟩, ⟨by decide, ha.2.1 (by decide)⟩,
         ⟨by decide, ha.2.2.1 (by decide)⟩, ⟨by decide, ha.2.2.2.1 (by decide)⟩,
         ⟨by decide, hb.2.2.2.2.1 (by decide)⟩, ⟨by decide, hb.2.2.2.2.2 (by decide)⟩⟩

lemma toInt32_eq_self_iff (v : Int) :
    toInt32 v = v ↔ (-(2 ^ 31) ≤ v ∧ v < 2 ^ 31) := by
  unfold toInt32
  omega

lemma spa_atoi32_success (s : CStr) (v b : Int) (hne : s.isEmpty = false)
    (he : (strtol s b).err = false) (hc : (strtol s b).consumed = s.length)
    (hlo : -(2 ^ 31) ≤ (strtol s b).value) (hhi : (strtol s b).value < 2 ^ 31) :
    spa_atoi32 (some s) v b = (true, (strtol s b).value) := by
  have h32 : toInt32 (strtol s b).value = (strtol s b).value :=
    (toInt32_eq_self_iff _).mpr ⟨hlo, hhi⟩
  simp [spa_atoi32, hne, he, hc, h32]

lemma spa_atou32_success (s : CStr) (v : Nat) (b : Int) (hne : s.isEmpty = false)
    (he : (strtoull s b).err = false) (hc : (strtoull s b).consumed = s.length)
    (hv : (strtoull s b).value < 2 ^ 32) :
    spa_atou32 (some s) v b = (true, (strtoull s b).value) := by
  have h32 : toUInt32clip (strtoull s b).value = (strtoull s b).value := by
    unfold toUInt32clip
    exact Nat.mod_eq_of_lt hv
  simp [spa_atou32, hne, he, hc, h32]

lemma spa_atoi64_success (s : CStr) (v b : Int) (hne : s.isEmpty = false)
    (he : (strtoll s b).err = false) (hc : (strtoll s b).consumed = s.length) :
    spa_atoi64 (some s) v b = (true, (strtoll s b).value) := by
  simp [spa_atoi64, hne, he, hc]

lemma spa_atou64_success (s : CStr) (v : Nat) (b : Int) (hne : s.isEmpty = false)
    (he : (strtoull s b).err = false) (hc : (strtoull s b).consumed = s.length) :
    spa_atou64 (some s) v b = (true, (strtoull s b).value) := by
  simp [spa_atou64, hne, he, hc]

lemma spa_atou32_narrow_fail (s : CStr) (v : Nat) (b : Int)
    (hv : 2 ^ 32 ≤ (strtoull s b).value) :
    spa_atou32 (some s) v b = (false, v) := by
  by_cases hs : s.isEmpty
  · simp [spa_atou32, hs]
  · have hm : (strtoull s b).value ≠ toUInt32clip (strtoull s b).value := by
      unfold toUInt32clip
      have := Nat.mod_lt (strtoull s b).value (show 0 < 2 ^ 32 by norm_num)
      omega
    simp [spa_atou32, hs, hm]

lemma spa_atoi32_narrow_fail (s : CStr) (v b : Int)
    (hv : (strtol s b).value < -(2 ^ 31) ∨ 2 ^ 31 ≤ (strtol s b).value) :
    spa_atoi32 (some s) v b = (false, v) := by
  by_cases hs : s.isEmpty
  · simp [spa_atoi32, hs]
  · have hm : (strtol s b).value ≠ toInt32 (strtol s b).value := by
      unfold toInt32
      omega
    simp [spa_atoi32, hs, hm]

/-- C3: a 32-bit integer parser rejects with false (neither clamping nor
wrapping) any input whose wide-precision conversion succeeds over the full
string but whose value does not fit the 32-bit target exactly; in
particular 4294967296 fails for uint32 while 4294967295 succeeds, and -1
fails for uint32 while it succeeds as int32. -/
theorem C3_32bit_narrowing_rejects :
    (∀ (s : CStr) (v : Nat) (b : Int),
        (strtoull s b).err = false → (strtoull s b).consumed = s.length →
        2 ^ 32 ≤ (strtoull s b).value →
        spa_atou32 (some s) v b = (false, v)) ∧
    (∀ (s : CStr) (v b : Int),
        (strtol s b).err = false → (strtol s b).consumed = s.length →
        ((strtol s b).value < -(2 ^ 31) ∨ 2 ^ 31 ≤ (strtol s b).value) →
        spa_atoi32 (some s) v b = (false, v)) ∧
    (∀ v : Nat, spa_atou32 (some "4294967296".toList) v 10 = (false, v)) ∧
    (∀ v : Nat, spa_atou32 (some "4294967295".toList) v 10 = (true, 4294967295)) ∧
    (∀ v : Nat, spa_atou32 (some "-1".toList) v 10 = (false, v)) ∧
    (∀ v : Int, spa_atoi32 (some "-1".toList) v 10 = (true, -1)) := by
  refine ⟨fun s v b _ _ hv => spa_atou32_narrow_fail s v b hv,
          fun s v b _ _ hv => spa_atoi32_narrow_fail s v b hv, ?_, ?_, ?_, ?_⟩
  · intro v
    exact spa_atou32_narrow_fail _ v 10 (by decide)
  · intro v
    have h := spa_atou32_success "4294967295".toList v 10 (by decide) (by decide)
      (by decide) (by decide)
    rw [show (strtoull "4294967295".toList 10).value = 4294967295 from by decide] at h
    exact h
  · intro v
    exact spa_atou32_narrow_fail _ v 10 (by decide)
  · intro v
    have h := spa_atoi32_success "-1".toList v 10 (by decide) (by decide)
      (by decide) (by decide) (by decide)
    rw [show (strtol "-1".toList 10).value = -1 from by decide] at h
    exact h

/-- C3 witness: the general rejection conjuncts applied at 4294967296 for
uint32 and at 2147483648 for int32, and the concrete conjuncts at a slot
primed with 7. -/
theorem C3_32bit_narrowing_rejects_witness :
    ((strtoull "4294967296".toList 10).err = false ∧
      (strtoull "4294967296".toList 10).consumed = ("4294967296".toList).length ∧
      2 ^ 32 ≤ (strtoull "4294967296".toList 10).value ∧
      spa_atou32 (some "4294967296".toList) 7 10 = (false, 7)) ∧
    ((strtol "2147483648".toList 10).err = false ∧
      (strtol "2147483648".toList 10).consumed = ("2147483648".toList).length ∧
      2 ^ 31 ≤ (strtol "2147483648".toList 10).value ∧
      spa_atoi32 (some "2147483648".toList) 7 10 = (false, 7)) ∧
    spa_atou32 (some "4294967295".toList) 7 10 = (true, 4294967295) ∧
    spa_atou32 (some "-1".toList) 7 10 = (false, 7) ∧
    spa_atoi32 (some "-1".toList) 7 10 = (true, -1) := by
  have h := C3_32bit_narrowing_rejects
  exact ⟨⟨by decide, by decide, by decide,
          h.1 "4294967296".toList 7 10 (by decide) (by decide) (by decide)⟩,
         ⟨by decide, by decide, by decide,
          h.2.1 "2147483648".toList 7 10 (by decide) (by decide) (Or.inr (by decide))⟩,
         h.2.2.2.1 7, h.2.2.2.2.1 7, h.2.2.2.2.2 7⟩

example : renderNat 10 42 = "42".toList := by decide
example : renderNat 16 255 = "ff".toList := by decide
example : renderInt 10 (-42) = "-42".toList := by decide
example : renderHex0x (-255) = "-0xff".toList := by decide
example : renderNat 2 5 = "101".toList := by decide

lemma natDigitsRevAux_eq_digits (b : Nat) (hb : 2 ≤ b) :
    ∀ fuel n, n ≤ fuel → natDigitsRevAux b fuel n = Nat.digits b n := by
  intro fuel
  induction fuel with
  | zero =>
    intro n hn
    interval_cases n
    simp [natDigitsRevAux]
  | succ fuel ih =>
    intro n hn
    cases n with
    | zero => simp [natDigitsRevAux]
    | succ m =>
      have hdiv : (m + 1) / b < m + 1 := Nat.div_lt_self (Nat.succ_pos m) (by omega)
      simp only [natDigitsRevAux]
      rw [Nat.digits_def' (show 1 < b by omega) (Nat.succ_pos m)]
      rw [ih ((m + 1) / b) (by omega)]

lemma natDigitsRev_eq_digits (b n : Nat) (hb : 2 ≤ b) :
    natDigitsRev b n = Nat.digits b n :=
  natDigitsRevAux_eq_digits b hb n n le_rfl

lemma natDigitChar_class (d : Nat) (hd : d < 36) :
    digitVal (natDigitChar d) = some d ∧
    cSpace (natDigitChar d) = false ∧
    natDigitChar d ≠ '-' ∧ natDigitChar d ≠ '+' := by
  interval_cases d <;> exact ⟨by decide, by decide, by decide, by decide⟩

lemma natDigitChar_ne_x (d : Nat) (hd : d < 16) :
    natDigitChar d ≠ 'x' ∧ natDigitChar d ≠ 'X' := by
  interval_cases d <;> exact ⟨by decide, by decide⟩

lemma renderNat_mem (b n : Nat) (hb : 2 ≤ b) :
    ∀ c ∈ renderNat b n, ∃ d, d < b ∧ c = natDigitChar d := by
  intro c hc
  unfold renderNat at hc
  split_ifs at hc with h0
  · refine ⟨0, by omega, ?_⟩
    rw [List.mem_singleton.mp hc]
    decide
  · rw [natDigitsRev_eq_digits b n hb] at hc
    rcases List.mem_map.mp hc with ⟨d, hd, rfl⟩
    have hdig : d ∈ Nat.digits b n := List.mem_reverse.mp hd
    exact ⟨d, Nat.digits_lt_base (by omega) hdig, rfl⟩

lemma renderNat_all_digits (b n : Nat) (hb : 2 ≤ b) (hb36 : b ≤ 36) :
    ∀ c ∈ renderNat b n, isBaseDigit b c = true := by
  intro c hc
  rcases renderNat_mem b n hb c hc with ⟨d, hdb, rfl⟩
  have h36 : d < 36 := lt_of_lt_of_le hdb hb36
  have hdv := (natDigitChar_class d h36).1
  simp [isBaseDigit, hdv, hdb]

lemma renderNat_ne_nil (b n : Nat) : renderNat b n ≠ [] := by
  unfold renderNat
  split_ifs with h0
  · simp
  · cases n with
    | zero => exact absurd rfl h0
    | succ m => simp [natDigitsRev, natDigitsRevAux]

lemma isEmpty_false_of_ne_nil (l : CStr) (h : l ≠ []) : l.isEmpty = false := by
  cases l with
  | nil => exact absurd rfl h
  | cons c t => rfl

lemma foldl_map_digitChar (b : Nat) :
    ∀ (L : List Nat) (acc : Nat), (∀ d ∈ L, d < 36) →
      (L.map natDigitChar).foldl (fun a c => a * b + ((digitVal c).getD 0)) acc
        = L.foldl (fun a d => a * b + d) acc := by
  intro L
  induction L with
  | nil => intro acc _; rfl
  | cons d t ih =>
    intro acc hmem
    have hd := (natDigitChar_class d (hmem d (by simp))).1
    simp only [List.map_cons, List.foldl_cons, hd, Option.getD_some]
    exact ih _ (fun x hx => hmem x (by simp [hx]))

lemma foldl_reverse_ofDigits (b : Nat) :
    ∀ (L : List Nat) (acc : Nat),
      L.reverse.foldl (fun a d => a * b + d) acc
        = acc * b ^ L.length + Nat.ofDigits b L := by
  intro L
  induction L with
  | nil => intro acc; simp [Nat.ofDigits_nil]
  | cons d t ih =>
    intro acc
    simp only [List.reverse_cons, List.foldl_append, List.foldl_cons,
      List.foldl_nil, ih, Nat.ofDigits_cons, List.length_cons, Nat.cast_id]
    ring

lemma digitsVal_renderNat (b n : Nat) (hb : 2 ≤ b) (hb36 : b ≤ 36) :
    digitsVal b (renderNat b n) = n := by
  unfold renderNat digitsVal
  split_ifs with h0
  · subst h0
    have hdv : digitVal '0' = some 0 := by decide
    simp [hdv]
  · rw [natDigitsRev_eq_digits b n hb]
    rw [foldl_map_digitChar b _ 0 (fun d hd => by
      have : d ∈ Nat.digits b n := List.mem_reverse.mp hd
      have := Nat.digits_lt_base (show 1 < b by omega) this
      omega)]
    rw [show (Nat.digits b n).reverse = (Nat.digits b n).reverse from rfl]
    rw [foldl_reverse_ofDigits b (Nat.digits b n) 0]
    simp [Nat.ofDigits_digits]

lemma resolveBase_16 (s : CStr) (hs : ∀ c ∈ s, isBaseDigit 16 c = true) :
    resolveBase (16 : Int) s = (16, 0, s) := by
  unfold resolveBase
  rw [if_pos rfl]
  match s, hs with
  | [], _ => rfl
  | [c0], _ => rfl
  | c0 :: x :: t, hs =>
    have hx : isBaseDigit 16 x = true := hs x (by simp)
    have h1 : x ≠ 'x' := fun he => by rw [he] at hx; exact absurd hx (by decide)
    have h2 : x ≠ 'X' := fun he => by rw [he] at hx; exact absurd hx (by decide)
    simp [h1, h2]

lemma resolveBase_generic (b : Nat) (s : CStr) (hb : 2 ≤ b) (hb16 : b ≠ 16) :
    resolveBase (b : Int) s = (b, 0, s) := by
  unfold resolveBase
  rw [if_neg (by exact_mod_cast hb16)]
  rw [if_neg (by exact_mod_cast (show b ≠ 0 by omega))]
  simp

lemma resolveBase_0_hex (s : CStr) (hhex : headIsHexDigit s = true) :
    resolveBase 0 ('0' :: 'x' :: s) = (16, 2, s) := by
  unfold resolveBase
  rw [if_neg (by decide), if_pos rfl]
  simp [hhex]

lemma scan_render_core (b n : Nat) (hb : 2 ≤ b) (hb36 : b ≤ 36) :
    (renderNat b n).takeWhile cSpace = [] ∧
    (renderNat b n).dropWhile cSpace = renderNat b n ∧
    splitSign (renderNat b n) = (false, 0, renderNat b n) ∧
    (renderNat b n).takeWhile (isBaseDigit b) = renderNat b n ∧
    (renderNat b n).isEmpty = false := by
  obtain ⟨c0, rest, hl⟩ : ∃ c0 rest, renderNat b n = c0 :: rest := by
    cases hr : renderNat b n with
    | nil => exact absurd hr (renderNat_ne_nil b n)
    | cons a t => exact ⟨a, t, rfl⟩
  have hc0 : c0 ∈ renderNat b n := by rw [hl]; simp
  rcases renderNat_mem b n hb c0 hc0 with ⟨d, hdb, hcd⟩
  have hclass := natDigitChar_class d (by omega)
  have hsp : cSpace c0 = false := by rw [hcd]; exact hclass.2.1
  have hms : c0 ≠ '-' := by rw [hcd]; exact hclass.2.2.1
  have hps : c0 ≠ '+' := by rw [hcd]; exact hclass.2.2.2
  refine ⟨?_, ?_, ?_, ?_, ?_⟩
  · rw [hl, List.takeWhile_cons, hsp]; rfl
  · rw [hl, List.dropWhile_cons]; simp [hsp]
  · rw [hl]; simp [splitSign, hms, hps]
  · exact List.takeWhile_eq_self_iff.mpr (renderNat_all_digits b n hb hb36)
  · rw [hl]; rfl

lemma parseIntRaw_renderNat (b n : Nat) (hb : 2 ≤ b) (hb36 : b ≤ 36) :
    parseIntRaw (b : Int) (renderNat b n) =
      ⟨false, n, (renderNat b n).length, true⟩ := by
  obtain ⟨hws, hdw, hsign, htw, hne⟩ := scan_render_core b n hb hb36
  have hrb : resolveBase (b : Int) (renderNat b n) = (b, 0, renderNat b n) := by
    by_cases h16 : b = 16
    · subst h16; exact resolveBase_16 _ (renderNat_all_digits 16 n hb hb36)
    · exact resolveBase_generic b _ hb h16
  have hde : (renderNat b n).isEmpty = false := hne
  simp only [parseIntRaw, hws, hdw, hsign, hrb, htw, hde,
    digitsVal_renderNat b n hb hb36, List.length_nil]
  simp

lemma parseIntRaw_neg_renderNat (b n : Nat) (hb : 2 ≤ b) (hb36 : b ≤ 36) :
    parseIntRaw (b : Int) ('-' :: renderNat b n) =
      ⟨true, n, (renderNat b n).length + 1, true⟩ := by
  obtain ⟨hws, hdw, hsign, htw, hne⟩ := scan_render_core b n hb hb36
  have hrb : resolveBase (b : Int) (renderNat b n) = (b, 0, renderNat b n) := by
    by_cases h16 : b = 16
    · subst h16; exact resolveBase_16 _ (renderNat_all_digits 16 n hb hb36)
    · exact resolveBase_generic b _ hb h16
  have hws2 : ('-' :: renderNat b n).takeWhile cSpace = [] := by
    rw [List.takeWhile_cons]; rfl
  have hdw2 : ('-' :: renderNat b n).dropWhile cSpace = '-' :: renderNat b n := by
    rw [List.dropWhile_cons]; simp [cSpace]
  have hsign2 : splitSign ('-' :: renderNat b n) = (true, 1, renderNat b n) := by
    simp [splitSign]
  simp only [parseIntRaw, hws2, hdw2, hsign2, hrb, htw, hne,
    digitsVal_renderNat b n hb hb36, List.length_nil]
  simp [Nat.add_comm]

lemma headIsHexDigit_renderNat (n : Nat) :
    headIsHexDigit (renderNat 16 n) = true := by
  obtain ⟨c0, rest, hl⟩ : ∃ c0 rest, renderNat 16 n = c0 :: rest := by
    cases hr : renderNat 16 n with
    | nil => exact absurd hr (renderNat_ne_nil 16 n)
    | cons a t => exact ⟨a, t, rfl⟩
  have hc0 : c0 ∈ renderNat 16 n := by rw [hl]; simp
  have hdig := renderNat_all_digits 16 n (by norm_num) (by norm_num) c0 hc0
  rw [hl]
  simpa [headIsHexDigit] using hdig

lemma parseIntRaw_hex0x (n : Nat) :
    parseIntRaw 0 ('0' :: 'x' :: renderNat 16 n) =
      ⟨false, n, (renderNat 16 n).length + 2, true⟩ := by
  obtain ⟨hws, hdw, hsign, htw, hne⟩ := scan_render_core 16 n (by norm_num) (by norm_num)
  have hrb := resolveBase_0_hex (renderNat 16 n) (headIsHexDigit_renderNat n)
  have hws2 : ('0' :: 'x' :: renderNat 16 n).takeWhile cSpace = [] := by
    rw [List.takeWhile_cons]; rfl
  have hdw2 : ('0' :: 'x' :: renderNat 16 n).dropWhile cSpace
      = '0' :: 'x' :: renderNat 16 n := by
    rw [List.dropWhile_cons]; simp [cSpace]
  have hsign2 : splitSign ('0' :: 'x' :: renderNat 16 n)
      = (false, 0, '0' :: 'x' :: renderNat 16 n) := by
    simp [splitSign]
  simp only [parseIntRaw, hws2, hdw2, hsign2, hrb, htw, hne,
    digitsVal_renderNat 16 n (by norm_num) (by norm_num), List.length_nil]
  simp [Nat.add_comm]

lemma parseIntRaw_neg_hex0x (n : Nat) :
    parseIntRaw 0 ('-' :: '0' :: 'x' :: renderNat 16 n) =
      ⟨true, n, (renderNat 16 n).length + 3, true⟩ := by
  obtain ⟨hws, hdw, hsign, htw, hne⟩ := scan_render_core 16 n (by norm_num) (by norm_num)
  have hrb := resolveBase_0_hex (renderNat 16 n) (headIsHexDigit_renderNat n)
  have hws2 : ('-' :: '0' :: 'x' :: renderNat 16 n).takeWhile cSpace = [] := by
    rw [List.takeWhile_cons]; rfl
  have hdw2 : ('-' :: '0' :: 'x' :: renderNat 16 n).dropWhile cSpace
      = '-' :: '0' :: 'x' :: renderNat 16 n := by
    rw [List.dropWhile_cons]; simp [cSpace]
  have hsign2 : splitSign ('-' :: '0' :: 'x' :: renderNat 16 n)
      = (true, 1, '0' :: 'x' :: renderNat 16 n) := by
    simp [splitSign]
  simp only [parseIntRaw, hws2, hdw2, hsign2, hrb, htw, hne,
    digitsVal_renderNat 16 n (by norm_num) (by norm_num), List.length_nil]
  simp [Nat.add_comm]

lemma validBase_cast (b : Nat) (hb : 2 ≤ b) (hb36 : b ≤ 36) :
    validBase (b : Int) = true := by
  simp only [validBase, Bool.or_eq_true, Bool.and_eq_true, decide_eq_true_eq]
  right
  constructor
  · exact_mod_cast hb
  · exact_mod_cast hb36

lemma strtoull_renderNat (b n : Nat) (hb : 2 ≤ b) (hb36 : b ≤ 36)
    (hn : n ≤ ULLONG_MAX) :
    strtoull (renderNat b n) (b : Int) = ⟨n, (renderNat b n).length, false⟩ := by
  unfold strtoull
  rw [if_neg (by simp [validBase_cast b hb hb36])]
  rw [parseIntRaw_renderNat b n hb hb36]
  simp [Nat.not_lt.mpr hn]

lemma strtoull_neg_renderNat (b n : Nat) (hb : 2 ≤ b) (hb36 : b ≤ 36)
    (hn : n ≤ ULLONG_MAX) :
    strtoull ('-' :: renderNat b n) (b : Int) =
      ⟨(2 ^ 64 - n) % 2 ^ 64, (renderNat b n).length + 1, false⟩ := by
  unfold strtoull
  rw [if_neg (by simp [validBase_cast b hb hb36])]
  rw [parseIntRaw_neg_renderNat b n hb hb36]
  simp [Nat.not_lt.mpr hn]

lemma strtol_renderInt (b : Nat) (v : Int) (hb : 2 ≤ b) (hb36 : b ≤ 36)
    (hlo : LONG_MIN ≤ v) (hhi : v ≤ LONG_MAX) :
    strtol (renderInt b v) (b : Int) = ⟨v, (renderInt b v).length, false⟩ := by
  unfold renderInt
  by_cases hv : v < 0
  · rw [if_pos hv]
    unfold strtol
    rw [if_neg (by simp [validBase_cast b hb hb36])]
    rw [parseIntRaw_neg_renderNat b v.natAbs hb hb36]
    have hval : -((v.natAbs : Nat) : Int) = v := by omega
    dsimp only
    rw [if_neg (show ¬ ¬ true = true by simp)]
    rw [if_pos (show true = true from rfl)]
    rw [hval]
    split_ifs with h1 h2
    · exact absurd h1 (by omega)
    · exact absurd h2 (by omega)
    · simp
  · rw [if_neg hv]
    unfold strtol
    rw [if_neg (by simp [validBase_cast b hb hb36])]
    rw [parseIntRaw_renderNat b v.natAbs hb hb36]
    have hval : ((v.natAbs : Nat) : Int) = v := by omega
    dsimp only
    rw [if_neg (show ¬ ¬ true = true by simp)]
    rw [if_neg (show ¬ false = true by simp)]
    rw [hval]
    split_ifs with h1 h2
    · exact absurd h1 (by omega)
    · exact absurd h2 (by omega)
    · rfl

lemma strtol_renderHex0x (v : Int) (hlo : LONG_MIN ≤ v) (hhi : v ≤ LONG_MAX) :
    strtol (renderHex0x v) 0 = ⟨v, (renderHex0x v).length, false⟩ := by
  unfold renderHex0x
  by_cases hv : v < 0
  · rw [if_pos hv]
    unfold strtol
    rw [if_neg (by simp [validBase])]
    rw [parseIntRaw_neg_hex0x v.natAbs]
    have hval : -((v.natAbs : Nat) : Int) = v := by omega
    dsimp only
    rw [if_neg (show ¬ ¬ true = true by simp)]
    rw [if_pos (show true = true from rfl)]
    rw [hval]
    split_ifs with h1 h2
    · exact absurd h1 (by omega)
    · exact absurd h2 (by omega)
    · simp
  · rw [if_neg hv]
    unfold strtol
    rw [if_neg (by simp [validBase])]
    rw [parseIntRaw_hex0x v.natAbs]
    have hval : ((v.natAbs : Nat) : Int) = v := by omega
    dsimp only
    rw [if_neg (show ¬ ¬ true = true by simp)]
    rw [if_neg (show ¬ false = true by simp)]
    rw [hval]
    split_ifs with h1 h2
    · exact absurd h1 (by omega)
    · exact absurd h2 (by omega)
    · simp

lemma strtoull_hex0x (n : Nat) (hn : n ≤ ULLONG_MAX) :
    strtoull ('0' :: 'x' :: renderNat 16 n) 0 =
      ⟨n, (renderNat 16 n).length + 2, false⟩ := by
  unfold strtoull
  rw [if_neg (by simp [validBase])]
  rw [parseIntRaw_hex0x n]
  simp [Nat.not_lt.mpr hn]

lemma renderInt_ne_nil (b : Nat) (v : Int) : renderInt b v ≠ [] := by
  unfold renderInt
  split_ifs
  · simp
  · exact renderNat_ne_nil b v.natAbs

lemma renderHex0x_ne_nil (v : Int) : renderHex0x v ≠ [] := by
  unfold renderHex0x
  split_ifs <;> simp

/-- C4: rendering any value of the target type in any supported base
(2 to 36) and parsing the rendering back with the matching parser at that
base yields (true, value); with base 0 auto-detection the same holds when
the rendering carries the matching 0x marker. -/
theorem C4_render_parse_roundtrip :
    (∀ (b : Nat) (v val : Int), 2 ≤ b → b ≤ 36 →
        -(2 ^ 31) ≤ v → v < 2 ^ 31 →
        spa_atoi32 (some (renderInt b v)) val (b : Int) = (true, v)) ∧
    (∀ (b n val : Nat), 2 ≤ b → b ≤ 36 → n < 2 ^ 32 →
        spa_atou32 (some (renderNat b n)) val (b : Int) = (true, n)) ∧
    (∀ (b : Nat) (v val : Int), 2 ≤ b → b ≤ 36 →
        -(2 ^ 63) ≤ v → v < 2 ^ 63 →
        spa_atoi64 (some (renderInt b v)) val (b : Int) = (true, v)) ∧
    (∀ (b n val : Nat), 2 ≤ b → b ≤ 36 → n < 2 ^ 64 →
        spa_atou64 (some (renderNat b n)) val (b : Int) = (true, n)) ∧
    (∀ (v val : Int), -(2 ^ 31) ≤ v → v < 2 ^ 31 →
        spa_atoi32 (some (renderHex0x v)) val 0 = (true, v)) ∧
    (∀ (n val : Nat), n < 2 ^ 32 →
        spa_atou32 (some ('0' :: 'x' :: renderNat 16 n)) val 0 = (true, n)) ∧
    (∀ (v val : Int), -(2 ^ 63) ≤ v → v < 2 ^ 63 →
        spa_atoi64 (some (renderHex0x v)) val 0 = (true, v)) ∧
    (∀ (n val : Nat), n < 2 ^ 64 →
        spa_atou64 (some ('0' :: 'x' :: renderNat 16 n)) val 0 = (true, n)) := by
  refine ⟨?_, ?_, ?_, ?_, ?_, ?_, ?_, ?_⟩
  · intro b v val hb hb36 hlo hhi
    have hs := strtol_renderInt b v hb hb36 (by unfold LONG_MIN; omega)
      (by unfold LONG_MAX; omega)
    have h := spa_atoi32_success (renderInt b v) val (b : Int)
      (isEmpty_false_of_ne_nil _ (renderInt_ne_nil b v))
      (by rw [hs]) (by rw [hs]) (by rw [hs]; exact hlo) (by rw [hs]; exact hhi)
    rw [hs] at h
    exact h
  · intro b n val hb hb36 hn
    have hs := strtoull_renderNat b n hb hb36 (by unfold ULLONG_MAX; omega)
    have h := spa_atou32_success (renderNat b n) val (b : Int)
      (isEmpty_false_of_ne_nil _ (renderNat_ne_nil b n))
      (by rw [hs]) (by rw [hs]) (by rw [hs]; exact hn)
    rw [hs] at h
    exact h
  · intro b v val hb hb36 hlo hhi
    have hs := strtol_renderInt b v hb hb36 (by unfold LONG_MIN; omega)
      (by unfold LONG_MAX; omega)
    have h := spa_atoi64_success (renderInt b v) val (b : Int)
      (isEmpty_false_of_ne_nil _ (renderInt_ne_nil b v))
      (by unfold strtoll; rw [hs]) (by unfold strtoll; rw [hs])
    rw [show strtoll = strtol from rfl, hs] at h
    exact h
  · intro b n val hb hb36 hn
    have hs := strtoull_renderNat b n hb hb36 (by unfold ULLONG_MAX; omega)
    have h := spa_atou64_success (renderNat b n) val (b : Int)
      (isEmpty_false_of_ne_nil _ (renderNat_ne_nil b n))
      (by rw [hs]) (by rw [hs])
    rw [hs] at h
    exact h
  · intro v val hlo hhi
    have hs := strtol_renderHex0x v (by unfold LONG_MIN; omega)
      (by unfold LONG_MAX; omega)
    have h := spa_atoi32_success (renderHex0x v) val 0
      (isEmpty_false_of_ne_nil _ (renderHex0x_ne_nil v))
      (by rw [hs]) (by rw [hs]) (by rw [hs]; exact hlo) (by rw [hs]; exact hhi)
    rw [hs] at h
    exact h
  · intro n val hn
    have hs := strtoull_hex0x n (by unfold ULLONG_MAX; omega)
    have h := spa_atou32_success ('0' :: 'x' :: renderNat 16 n) val 0
      (by rfl) (by rw [hs]) (by rw [hs]; simp) (by rw [hs]; exact hn)
    rw [hs] at h
    exact h
  · intro v val hlo hhi
    have hs := strtol_renderHex0x v (by unfold LONG_MIN; omega)
      (by unfold LONG_MAX; omega)
    have h := spa_atoi64_success (renderHex0x v) val 0
      (isEmpty_false_of_ne_nil _ (renderHex0x_ne_nil v))
      (by unfold strtoll; rw [hs]) (by unfold strtoll; rw [hs])
    rw [show strtoll = strtol from rfl, hs] at h
    exact h
  · intro n val hn
    have hs := strtoull_hex0x n (by unfold ULLONG_MAX; omega)
    have h := spa_atou64_success ('0' :: 'x' :: renderNat 16 n) val 0
      (by rfl) (by rw [hs]) (by rw [hs]; simp)
    rw [hs] at h
    exact h

/-- C4 witness: concrete round trips through the renderer for each parser,
at base 10 and 16 and 2 and 36 and with the 0x form at base 0. -/
theorem C4_render_parse_roundtrip_witness :
    ((2 : Nat) ≤ 10 ∧ (10 : Nat) ≤ 36 ∧ -(2 ^ 31) ≤ (-42 : Int) ∧ (-42 : Int) < 2 ^ 31 ∧
      spa_atoi32 (some (renderInt 10 (-42))) 7 ((10 : Nat) : Int) = (true, -42)) ∧
    ((2 : Nat) ≤ 16 ∧ (16 : Nat) ≤ 36 ∧ (255 : Nat) < 2 ^ 32 ∧
      spa_atou32 (some (renderNat 16 255)) 7 ((16 : Nat) : Int) = (true, 255)) ∧
    ((2 : Nat) ≤ 2 ∧ (2 : Nat) ≤ 36 ∧ -(2 ^ 63) ≤ (-5 : Int) ∧ (-5 : Int) < 2 ^ 63 ∧
      spa_atoi64 (some (renderInt 2 (-5))) 7 ((2 : Nat) : Int) = (true, -5)) ∧
    ((2 : Nat) ≤ 36 ∧ (36 : Nat) ≤ 36 ∧ (35 : Nat) < 2 ^ 64 ∧
      spa_atou64 (some (renderNat 36 35)) 7 ((36 : Nat) : Int) = (true, 35)) ∧
    (-(2 ^ 31) ≤ (-255 : Int) ∧ (-255 : Int) < 2 ^ 31 ∧
      spa_atoi32 (some (renderHex0x (-255))) 7 0 = (true, -255)) ∧
    ((255 : Nat) < 2 ^ 32 ∧
      spa_atou32 (some ('0' :: 'x' :: renderNat 16 255)) 7 0 = (true, 255)) ∧
    (-(2 ^ 63) ≤ (-42 : Int) ∧ (-42 : Int) < 2 ^ 63 ∧
      spa_atoi64 (some (renderHex0x (-42))) 7 0 = (true, -42)) ∧
    ((2 ^ 63 : Nat) < 2 ^ 64 ∧
      spa_atou64 (some ('0' :: 'x' :: renderNat 16 (2 ^ 63))) 7 0 = (true, 2 ^ 63)) := by
  have h := C4_render_parse_roundtrip
  exact ⟨⟨by decide, by decide, by decide, by decide,
          h.1 10 (-42) 7 (by decide) (by decide) (by decide) (by decide)⟩,
         ⟨by decide, by decide, by decide,
          h.2.1 16 255 7 (by decide) (by decide) (by decide)⟩,
         ⟨by decide, by decide, by decide, by decide,
          h.2.2.1 2 (-5) 7 (by decide) (by decide) (by decide) (by decide)⟩,
         ⟨by decide, by decide, by decide,
          h.2.2.2.1 36 35 7 (by decide) (by decide) (by decide)⟩,
         ⟨by decide, by decide,
          h.2.2.2.2.1 (-255) 7 (by decide) (by decide)⟩,
         ⟨by decide,
          h.2.2.2.2.2.1 255 7 (by decide)⟩,
         ⟨by decide, by decide,
          h.2.2.2.2.2.2.1 (-42) 7 (by decide) (by decide)⟩,
         ⟨by decide,
          h.2.2.2.2.2.2.2 (2 ^ 63) 7 (by decide)⟩⟩

/-- C10: spa_atou64 accepts a leading minus sign: for every decimal
rendering of k with 1 up to 2 to the 64 minus 1, the parse of the minus
form succeeds and stores 2 to the 64 minus k, because the unsigned wide
conversion negates modulo 2 to the 64 and spa_atou64 applies no narrowing
check. -/
theorem C10_atou64_negative_wraparound :
    ∀ (k val : Nat), 1 ≤ k → k ≤ 2 ^ 64 - 1 →
      spa_atou64 (some ('-' :: renderNat 10 k)) val 10 = (true, 2 ^ 64 - k) := by
  intro k val h1 h2
  have hcast : ((10 : Nat) : Int) = (10 : Int) := by norm_num
  have hs := strtoull_neg_renderNat 10 k (by norm_num) (by norm_num)
    (by unfold ULLONG_MAX; omega)
  rw [hcast] at hs
  have hmod : (2 ^ 64 - k) % 2 ^ 64 = 2 ^ 64 - k := Nat.mod_eq_of_lt (by omega)
  rw [hmod] at hs
  have h := spa_atou64_success ('-' :: renderNat 10 k) val 10 (by rfl)
    (by rw [hs]) (by rw [hs]; simp)
  rw [hs] at h
  exact h

/-- C10 witness: parsing -1 as uint64 at base 10 succeeds and stores
18446744073709551615, that is 2 to the 64 minus 1. -/
theorem C10_atou64_negative_wraparound_witness :
    (1 ≤ 1 ∧ (1 : Nat) ≤ 2 ^ 64 - 1) ∧
    spa_atou64 (some "-1".toList) 7 10 = (true, 2 ^ 64 - 1) := by
  have h := C10_atou64_negative_wraparound 1 7 (le_refl 1) (by norm_num)
  rw [show ('-' :: renderNat 10 1) = "-1".toList from by decide] at h
  exact ⟨⟨le_refl 1, by norm_num⟩, h⟩
